import Mathlib

/-!
Shallow embedding of the semantic clustering and visualization pipeline in
src/switzerland/scrape_and_viz.py, together with theorems settling the
frozen claims about it.

Modelling conventions:
* Python strings are modelled as lists of characters (PyStr); Python
  string operations lower, split, slicing and join are modelled by the
  corresponding list operations.
* Floating point values are modelled as rationals; the float NaN that
  numpy produces for an empty mean is modelled by Option, with none
  standing for the undefined (NaN) value.
* External library calls that the repository does not implement are
  modelled as oracle parameters:
  - sklearn KMeans inertia (KMeans(..).fit(X).inertia_) is an oracle
    taking the keyword arguments, the feature matrix and k;
  - kneed KneeLocator(x, y, curve = convex, direction = decreasing).elbow
    is an oracle taking the x range and the y values, returning an
    optional elbow (the kneed library always returns one of the given
    x values when it returns one at all, captured by KneeInRange);
  - texthero hero.kmeans, hero.pca, hero.tsne and the Google USE
    embedding call are oracles as well.
  - sklearn StandardScaler divides by the square root of the per-column
    variance, an irrational quantity in general; the scale vector sigma
    is therefore a parameter, characterised where needed by the Boolean
    predicate isSqrtScaleB relating it to the per-column variances.
* The repository functions themselves (token filtering, vector
  averaging, the sweep over k, the elbow edge-case branches, clamping,
  the column dataflow of the two visualization drivers, truncation) are
  translated line by line from the source.
-/

namespace ScrapeViz

/-- A Python string, modelled as its sequence of characters. -/
abbrev PyStr := List Char

/-- Python str.lower, restricted to the ASCII fragment. -/
def pyLower (s : PyStr) : PyStr := s.map Char.toLower

/-! ## text_first_N (source lines 88-102) -/

/-- The argument of text_first_N is either a string or a list of strings
(the source joins a list with a space and applies str otherwise; str on a
string is the identity). -/
inductive PyTextArg where
  | str (s : PyStr)
  | list (ts : List PyStr)
deriving DecidableEq

/-- Models the line: text = " ".join(text) if isinstance(text, list) else str(text). -/
def coerce_text : PyTextArg → PyStr
  | PyTextArg.str s => s
  | PyTextArg.list ts => List.intercalate [' '] ts

/-- The ellipsis marker appended by text_first_N. -/
def ellipsis : PyStr := ['.', '.', '.']

/-- Models text_first_N: return text[:num] + "..." if len(text) > num else text. -/
def text_first_N (text : PyTextArg) (num : Nat) : PyStr :=
  let t := coerce_text text
  if num < t.length then t.take num ++ ellipsis else t

/-! ## get_vector_freetext (source lines 306-347) -/

/-- Models lines 320-322 of the source: lower-case the input, split on the
single space character, and keep the words whose length is strictly
greater than the cutoff. -/
def get_usable_words (input_text : PyStr) (cutoff : Nat) : List PyStr :=
  ((pyLower input_text).splitOn ' ').filter (fun word => cutoff < word.length)

/-- Models the lookup loop of lines 328-336: for each word, try
model.wv[word]; on success append the vector, on a missing key increment
num_excluded. Returns the collected vectors and the excluded count. -/
def collectVectors (lookup : PyStr → Option (List ℚ)) : List PyStr → List (List ℚ) × Nat
  | [] => ([], 0)
  | w :: ws =>
    let rest := collectVectors lookup ws
    match lookup w with
    | some v => (v :: rest.1, rest.2)
    | none => (rest.1, rest.2 + 1)

/-- Arithmetic mean of a list of rationals (0 on the empty list; only
applied to non-empty lists below). -/
def meanQ (l : List ℚ) : ℚ := l.sum / l.length

/-- Population variance of a list of rationals, as computed by sklearn
StandardScaler (ddof = 0). -/
def varQ (l : List ℚ) : ℚ := (l.map (fun x => (x - meanQ l) ^ 2)).sum / l.length

/-- Structural transpose of a rectangular matrix, by recursion on the
length of the first row. -/
def transposeAux : Nat → List (List ℚ) → List (List ℚ)
  | 0, _ => []
  | n + 1, vs => (vs.map fun v => v.headD 0) :: transposeAux n (vs.map (List.drop 1))

/-- Transpose of a rectangular list of rows into its list of columns. -/
def transposeQ (vs : List (List ℚ)) : List (List ℚ) :=
  transposeAux (vs.headD []).length vs

/-- Models numpy mean(vectors, axis = 0): none (NaN) on an empty list,
otherwise the element-wise mean. -/
def npMeanAxis0 (vs : List (List ℚ)) : Option (List ℚ) :=
  if vs.isEmpty then none else some ((transposeQ vs).map meanQ)

/-- Result of get_vector_freetext: the representative vector (none models
the NaN result of numpy mean on an empty list), the number of words whose
lookup failed, and the total number of usable words. -/
structure GVFOut where
  rep_vec : Option (List ℚ)
  num_excluded : Nat
  num_words_total : Nat
deriving DecidableEq

/-- Models get_vector_freetext (source lines 306-347): filter the words,
look each one up in the model, and return the element-wise mean of the
successful lookups (undefined when there are none). The function is
total: a missing word is counted, never an error. -/
def get_vector_freetext (input_text : PyStr) (lookup : PyStr → Option (List ℚ))
    (cutoff : Nat) : GVFOut :=
  let usable_words := get_usable_words input_text cutoff
  let c := collectVectors lookup usable_words
  { rep_vec := npMeanAxis0 c.1, num_excluded := c.2, num_words_total := usable_words.length }

/-! ## StandardScaler model (source lines 132-145) -/

/-- Per-column means of the feature matrix, as fitted by StandardScaler. -/
def fitMean (vs : List (List ℚ)) : List ℚ := (transposeQ vs).map meanQ

/-- Per-column population variances of the feature matrix. -/
def colVars (vs : List (List ℚ)) : List ℚ := (transposeQ vs).map varQ

/-- One row of StandardScaler transform: (x - mean) / scale, element-wise. -/
def standardizeRow : List ℚ → List ℚ → List ℚ → List ℚ
  | x :: xs, m :: ms, s :: ss => (x - m) / s :: standardizeRow xs ms ss
  | _, _, _ => []

/-- Models scaler.fit_transform(input): subtract the fitted column means
and divide by the scale vector sigma (sklearn uses the square root of the
column variance, with zero variances replaced by one). -/
def fit_transform (sigma : List ℚ) (vs : List (List ℚ)) : List (List ℚ) :=
  vs.map (fun v => standardizeRow v (fitMean vs) sigma)

/-- Boolean check that sigma is exactly the sklearn scale vector for the
given column variances: one where the variance is zero, and otherwise the
non-negative square root of the variance. -/
def isSqrtScaleB (vars sigma : List ℚ) : Bool :=
  vars.length = sigma.length &&
    (vars.zip sigma).all fun p =>
      if p.1 = 0 then p.2 = 1 else decide (0 ≤ p.2) && decide (p.2 ^ 2 = p.1)

/-! ## find_optimal_k (source lines 105-210) -/

/-- The keyword arguments the source passes to every KMeans run
(source lines 146-151). -/
structure KMeansParams where
  init_mode : PyStr
  n_init : Nat
  max_iter : Nat
  random_state : Nat
deriving DecidableEq

/-- The fixed kmeans_kwargs dictionary of the source: init = random,
n_init = 30, max_iter = 300, random_state = 42. -/
def kmeans_kwargs : KMeansParams :=
  { init_mode := "random".toList, n_init := 30, max_iter := 300, random_state := 42 }

/-- The two warnings find_optimal_k can emit. -/
inductive KWarning where
  | noElbowMax
  | elbowAtBoundary
deriving DecidableEq

/-- Observable outcome of find_optimal_k: the returned cluster count, the
(k, sse) curve assembled into kmeans_opt_df, the x range and y values
handed to KneeLocator, the standardized features, and the warning
surfaced, if any. -/
structure OptKResult where
  k : Nat
  curve : List (Nat × ℚ)
  kneeXs : List Nat
  kneeSse : List ℚ
  scaled : List (List ℚ)
  warning : Option KWarning
deriving DecidableEq

/-- Models find_optimal_k (source lines 105-210) on a list input matrix.
The sweep iterates the Python expression range(1, top_end), hence the
list of tested cluster counts is 1, 2, ..., top_end - 1; the sse list is
the inertia oracle applied to the standardized features at each tested k
(the source fills sse twice with two identical loops, lines 153-164; the
second pass overwrites the first with the same values, and the embedding
keeps the final value); KneeLocator receives exactly that range and that
list. The branch
structure on the elbow result copies lines 185-210: no elbow returns
top_end with the degenerate warning, an elbow equal to top_end keeps the
boundary warning, any other elbow is returned silently. -/
def find_optimal_k (inertia : KMeansParams → List (List ℚ) → Nat → ℚ)
    (knee : List Nat → List ℚ → Option Nat)
    (sigma : List ℚ) (input_matrix : List (List ℚ)) (top_end : Nat) : OptKResult :=
  let scaled_features := fit_transform sigma input_matrix
  let ks := List.range' 1 (top_end - 1)
  let sse := ks.map (inertia kmeans_kwargs scaled_features)
  match knee ks sse with
  | none =>
      { k := top_end, curve := ks.zip sse, kneeXs := ks, kneeSse := sse,
        scaled := scaled_features, warning := some KWarning.noElbowMax }
  | some onk =>
      { k := onk, curve := ks.zip sse, kneeXs := ks, kneeSse := sse,
        scaled := scaled_features,
        warning := if onk = top_end then some KWarning.elbowAtBoundary else none }

/-- Property of the kneed KneeLocator library: when it reports an elbow at
all, the elbow is one of the x values it was given. -/
def KneeInRange (knee : List Nat → List ℚ → Option Nat) : Prop :=
  ∀ xs ys k, knee xs ys = some k → k ∈ xs

/-! ## The two visualization drivers -/

/-- Models the clamp in viz_job_data_word2vec lines 378-379 and
vizjobs_googleUSE lines 504-506: if the number of vectors is below
max_clusters, lower max_clusters to that number. -/
def clamp_top_end (num_vectors max_clusters : Nat) : Nat :=
  if num_vectors < max_clusters then num_vectors else max_clusters

/-- The keyword arguments both drivers pass to hero.kmeans:
algorithm = elkan, random_state = 42, n_init = 30. -/
structure HeroKMeansParams where
  algorithm : PyStr
  random_state : Nat
  n_init : Nat
deriving DecidableEq

/-- The fixed hero.kmeans arguments of the source (lines 389-397, 516-525). -/
def hero_kmeans_args : HeroKMeansParams :=
  { algorithm := "elkan".toList, random_state := 42, n_init := 30 }

/-- One input row of a visualization dataframe in the word2vec driver:
the designated text column plus the remaining metadata cells (none models
a NaN cell). -/
structure W2VRow where
  text : PyStr
  meta : List (Option ℚ)
deriving DecidableEq

/-- Errors raised by the numeric stages: sklearn raises on NaN input, so
a NaN representative vector aborts the run inside the selector call. -/
inductive VizError where
  | nanInput
deriving DecidableEq

/-- One rendered point of the word2vec driver: this path performs no
dropna, so the metadata cells may still be undefined. -/
structure W2VPoint where
  meta : List (Option ℚ)
  label : Nat
  x : ℚ
  y : ℚ
deriving DecidableEq

/-- Observable outcome of viz_job_data_word2vec. -/
structure W2VOut where
  optk : OptKResult
  clusterInput : List (List ℚ)
  labels : List Nat
  coords : List (ℚ × ℚ)
  points : List W2VPoint
deriving DecidableEq

/-- Collapse a list of optional values: none as soon as one entry is
none (a NaN anywhere poisons the numeric stage), otherwise the list. -/
def allSomeList : List (Option α) → Option (List α)
  | [] => some []
  | none :: _ => none
  | some x :: rest => (allSomeList rest).map (fun l => x :: l)

/-- Models viz_job_data_word2vec (source lines 350-463), numeric dataflow
only. Each text is vectorized with get_vector_freetext at the default
cutoff 2; if any representative vector is undefined (NaN), the
StandardScaler call inside find_optimal_k raises and the run aborts.
Otherwise the selector runs on top_end clamped to the number of vectors,
hero.kmeans receives the raw avg_vec column (no standardization, lines
389-399), hero.pca the same raw column, and every row is emitted as a
point: this path performs no dropna. -/
def viz_job_data_word2vec (lookup : PyStr → Option (List ℚ))
    (inertia : KMeansParams → List (List ℚ) → Nat → ℚ)
    (knee : List Nat → List ℚ → Option Nat) (sigma : List ℚ)
    (kmeansO : HeroKMeansParams → List (List ℚ) → Nat → List Nat)
    (pcaO : List (List ℚ) → List (ℚ × ℚ))
    (rows : List W2VRow) (max_clusters : Nat) : Except VizError W2VOut :=
  let avg_vec := rows.map (fun r => (get_vector_freetext r.text lookup 2).rep_vec)
  match allSomeList avg_vec with
  | none => Except.error VizError.nanInput
  | some vecs =>
    let top_end := clamp_top_end vecs.length max_clusters
    let r := find_optimal_k inertia knee sigma vecs top_end
    let labels := kmeansO hero_kmeans_args vecs r.k
    let coords := pcaO vecs
    Except.ok
      { optk := r, clusterInput := vecs, labels := labels, coords := coords,
        points := (rows.zip (labels.zip coords)).map
          (fun p => { meta := p.1.meta, label := p.2.1, x := p.2.2.1, y := p.2.2.2 }) }

/-- One input row of the Google USE driver: the text column and the
metadata cells (none models a NaN cell). The USE embedding always yields
a finite vector, so the vector column is total here. -/
structure USERow where
  text : PyStr
  meta : List (Option ℚ)
deriving DecidableEq

/-- One rendered point of the Google USE driver; the dropna just before
plotting guarantees every surviving cell is defined. -/
structure USEPoint where
  meta : List ℚ
  label : Nat
  x : ℚ
  y : ℚ
deriving DecidableEq

/-- Observable outcome of vizjobs_googleUSE: the selector outcome, the
full cluster assignment column, the vector list handed to the
dimensionality reducer, the resulting coordinates, and the point set
remaining after dropna. -/
structure USEOut where
  optk : OptKResult
  assignment : List Nat
  projInput : List (List ℚ)
  coords : List (ℚ × ℚ)
  points : List USEPoint
deriving DecidableEq

/-- The string tsne, against which the source compares viz_type.lower(). -/
def tsneStr : PyStr := "tsne".toList

/-- Models the dropna call followed by the point assembly of the Google
USE driver: join each row with its cluster label and coordinate, keeping
exactly the rows whose metadata cells are all defined. -/
def dropnaJoin (rows : List USERow) (ls : List Nat) (cs : List (ℚ × ℚ)) : List USEPoint :=
  (rows.zip (ls.zip cs)).filterMap
    (fun p => (allSomeList p.1.meta).map
      (fun m => { meta := m, label := p.2.1, x := p.2.2.1, y := p.2.2.2 }))

/-- Models vizjobs_googleUSE (source lines 484-621), numeric dataflow
only. The USE oracle embeds all texts; the selector runs with
max_clusters 15 clamped to the number of vectors; hero.kmeans receives
the raw use_vec column (line 516-526) before and independently of the
projection; the projection (line 530-533) is TSNE exactly when
viz_type.lower() equals tsne and PCA otherwise, applied to the same raw
vector column; dropna (line 594) then removes every row with an undefined
cell, after the projection and just before the points are assembled. -/
def vizjobs_googleUSE (useO : List PyStr → List (List ℚ))
    (inertia : KMeansParams → List (List ℚ) → Nat → ℚ)
    (knee : List Nat → List ℚ → Option Nat) (sigma : List ℚ)
    (kmeansO : HeroKMeansParams → List (List ℚ) → Nat → List Nat)
    (pcaO tsneO : List (List ℚ) → List (ℚ × ℚ))
    (rows : List USERow) (viz_type : PyStr) : USEOut :=
  let use_vec := useO (rows.map (fun r => r.text))
  let top_end := clamp_top_end use_vec.length 15
  let r := find_optimal_k inertia knee sigma use_vec top_end
  let labels := kmeansO hero_kmeans_args use_vec r.k
  let coords := if pyLower viz_type = tsneStr then tsneO use_vec else pcaO use_vec
  { optk := r, assignment := labels, projInput := use_vec, coords := coords,
    points := dropnaJoin rows labels coords }

/-! ## Concrete instances used by closed counterexamples and witnesses -/

/-- The two characters a and b, as a Python string. -/
def abToken : PyStr := "ab".toList

/-- A string whose only internal whitespace is a tab character. -/
def tabText : PyStr := "aaa\tbbb".toList

/-- Two usable words separated by a space. -/
def twoWords : PyStr := "alpha beta".toList

/-- A sample string of eight characters. -/
def sampleLong : PyStr := "abcdefgh".toList

/-- The expected truncation of sampleLong at five characters. -/
def sampleTrunc : PyStr := "abcde...".toList

/-- A vocabulary lookup containing no words at all. -/
def noVocab : PyStr → Option (List ℚ) := fun _ => none

/-- An inertia oracle returning zero everywhere. -/
def inertiaDemo : KMeansParams → List (List ℚ) → Nat → ℚ := fun _ _ _ => 0

/-- An inertia oracle that depends on k under the fixed kmeans_kwargs and
is zero under any other parameters. -/
def inertiaA : KMeansParams → List (List ℚ) → Nat → ℚ :=
  fun p _ k => if p = kmeans_kwargs then (k : ℚ) else 0

/-- An inertia oracle agreeing with inertiaA under kmeans_kwargs but
differing elsewhere. -/
def inertiaB : KMeansParams → List (List ℚ) → Nat → ℚ :=
  fun p _ k => if p = kmeans_kwargs then (k : ℚ) else 7

/-- A knee oracle that never finds an elbow. -/
def kneeNone : List Nat → List ℚ → Option Nat := fun _ _ => none

/-- A knee oracle that always reports the elbow at two. -/
def kneeAtTwo : List Nat → List ℚ → Option Nat := fun _ _ => some 2

/-- A one-dimensional scale vector equal to one. -/
def sigma1 : List ℚ := [1]

/-- A concrete one-dimensional vector set with column mean one and column
variance one. -/
def vecsDemo : List (List ℚ) := [[0], [2]]

/-- The word aaa. -/
def wordA : PyStr := "aaa".toList

/-- The word bbb. -/
def wordB : PyStr := "bbb".toList

/-- A vocabulary mapping aaa to the vector [0] and bbb to [2]. -/
def lookupAB : PyStr → Option (List ℚ) :=
  fun w => if w = wordA then some [0] else if w = wordB then some [2] else none

/-- A vocabulary mapping aaa to the vector [-1] and bbb to [1], so that
the resulting vector set is already standardized. -/
def lookupStd : PyStr → Option (List ℚ) :=
  fun w => if w = wordA then some [-1] else if w = wordB then some [1] else none

/-- A dataframe row whose text is aaa. -/
def rowA : W2VRow := { text := wordA, meta := [some 5] }

/-- A dataframe row whose text is bbb. -/
def rowB : W2VRow := { text := wordB, meta := [some 6] }

/-- A dataframe row whose text field is the empty string. -/
def rowEmpty : W2VRow := { text := [], meta := [some 1] }

/-- A hero.kmeans oracle assigning label zero to every vector. -/
def km0 : HeroKMeansParams → List (List ℚ) → Nat → List Nat :=
  fun _ vs _ => vs.map (fun _ => 0)

/-- A projection oracle sending every vector to the origin. -/
def pca0 : List (List ℚ) → List (ℚ × ℚ) := fun vs => vs.map (fun _ => (0, 0))

/-! ## Helper lemmas -/

lemma zip_self_map {α β : Type} (f : α → β) (l : List α) :
    l.zip (l.map f) = l.map (fun a => (a, f a)) := by
  induction l with
  | nil => rfl
  | cons a l ih => simp [ih]

lemma collectVectors_count (lookup : PyStr → Option (List ℚ)) (ws : List PyStr) :
    (collectVectors lookup ws).2 = ws.countP (fun w => (lookup w).isNone) := by
  induction ws with
  | nil => rfl
  | cons w ws ih =>
    rw [List.countP_cons]
    cases h : lookup w <;> simp [collectVectors, h, ih]

lemma collectVectors_all_none (lookup : PyStr → Option (List ℚ)) (ws : List PyStr)
    (h : ∀ w ∈ ws, lookup w = none) : collectVectors lookup ws = ([], ws.length) := by
  induction ws with
  | nil => rfl
  | cons w ws ih =>
    have hw : lookup w = none := h w (by simp)
    have ih1 := ih (fun x hx => h x (by simp [hx]))
    simp [collectVectors, hw, ih1]

lemma allSomeList_eq_none {α : Type} (l : List (Option α)) (h : none ∈ l) :
    allSomeList l = none := by
  induction l with
  | nil => simp at h
  | cons a l ih =>
    cases a with
    | none => rfl
    | some x =>
      have : none ∈ l := by simpa using h
      simp [allSomeList, ih this]

/-! ## Claim theorems -/

/-- C10: for every string input, text_first_N returns the input unchanged
when its length is at most num, and otherwise returns the first num
characters followed by the ellipsis marker, so every returned preview has
length at most num + 3; a list input is first joined into a single
space-separated string (coerce_text, folded into text_first_N). -/
theorem text_first_N_correct (text : PyTextArg) (num : Nat) :
    ((coerce_text text).length ≤ num → text_first_N text num = coerce_text text)
    ∧ (num < (coerce_text text).length →
        text_first_N text num = (coerce_text text).take num ++ ellipsis)
    ∧ (text_first_N text num).length ≤ num + 3
    ∧ (∀ ts, coerce_text (PyTextArg.list ts) = List.intercalate [' '] ts) := by
  refine ⟨fun h => ?_, fun h => ?_, ?_, fun ts => rfl⟩
  · simp [text_first_N, Nat.not_lt.mpr h]
  · simp [text_first_N, h]
  · by_cases h : num < (coerce_text text).length
    · simp only [text_first_N, if_pos h, List.length_append, List.length_take]
      have : min num (coerce_text text).length ≤ num := Nat.min_le_left _ _
      simp only [ellipsis, List.length_cons, List.length_nil]
      omega
    · simp only [text_first_N, if_neg h]
      omega

/-- Witness for C10 at a concrete eight character string truncated to
five characters. -/
theorem text_first_N_correct_witness :
    text_first_N (PyTextArg.str sampleLong) 5 = sampleTrunc := by
  have h := (text_first_N_correct (PyTextArg.str sampleLong) 5).2.1 (by decide)
  rw [h]; decide

/-- C4 counterexample: the token ab has length exactly equal to the
cutoff two and appears in the split of the lower-cased text, yet it is
discarded, refuting retention of every token of length at least the
cutoff; moreover a tab does not separate tokens, so the split is on the
space character only, not on whitespace. -/
theorem get_usable_words_cex :
    get_usable_words abToken 2 = []
    ∧ 2 ≤ abToken.length
    ∧ abToken ∈ (pyLower abToken).splitOn ' '
    ∧ get_usable_words tabText 2 = [tabText] := by
  decide

/-- C4 as amended: get_vector_freetext lower-cases the text, splits it on
the single space character (keeping empty segments), and retains a token
for embedding lookup if and only if its length is strictly greater than
the cutoff parameter. -/
theorem get_usable_words_mem (text : PyStr) (cutoff : Nat) (w : PyStr) :
    w ∈ get_usable_words text cutoff ↔
      w ∈ (pyLower text).splitOn ' ' ∧ cutoff < w.length := by
  simp [get_usable_words, List.mem_filter]

/-- C5: tokens missing from the vocabulary are skipped and counted as
excluded rather than treated as errors (the excluded count equals the
number of usable words whose lookup fails), and whenever every usable
word fails to resolve, including the case of no usable words at all, the
representative vector is the undefined (NaN) value, returned rather than
raised. -/
theorem get_vector_freetext_zero_lookups (text : PyStr)
    (lookup : PyStr → Option (List ℚ)) (cutoff : Nat) :
    (get_vector_freetext text lookup cutoff).num_excluded
      = (get_usable_words text cutoff).countP (fun w => (lookup w).isNone)
    ∧ ((∀ w ∈ get_usable_words text cutoff, lookup w = none) →
        (get_vector_freetext text lookup cutoff).rep_vec = none
        ∧ (get_vector_freetext text lookup cutoff).num_excluded
            = (get_usable_words text cutoff).length) := by
  constructor
  · simp [get_vector_freetext, collectVectors_count]
  · intro h
    have hc := collectVectors_all_none lookup (get_usable_words text cutoff) h
    constructor
    · simp [get_vector_freetext, hc, npMeanAxis0]
    · simp [get_vector_freetext, hc]

/-- Witness for C5: on a text of two usable words with an empty
vocabulary, the representative vector is undefined and both words are
counted as excluded. -/
theorem get_vector_freetext_zero_lookups_witness :
    (get_vector_freetext twoWords noVocab 2).rep_vec = none
    ∧ (get_vector_freetext twoWords noVocab 2).num_excluded = 2 := by
  have h := (get_vector_freetext_zero_lookups twoWords noVocab 2).2 (fun w _ => rfl)
  exact ⟨h.1, by rw [h.2]; decide⟩

lemma optk_k_eq_none (i : KMeansParams → List (List ℚ) → Nat → ℚ)
    (kn : List Nat → List ℚ → Option Nat) (σ : List ℚ) (vs : List (List ℚ)) (t : Nat)
    (h : kn (List.range' 1 (t - 1))
        ((List.range' 1 (t - 1)).map (i kmeans_kwargs (fit_transform σ vs))) = none) :
    (find_optimal_k i kn σ vs t).k = t
    ∧ (find_optimal_k i kn σ vs t).warning = some KWarning.noElbowMax := by
  rw [find_optimal_k]
  simp only [h]
  exact ⟨trivial, trivial⟩

lemma optk_k_eq_some (i : KMeansParams → List (List ℚ) → Nat → ℚ)
    (kn : List Nat → List ℚ → Option Nat) (σ : List ℚ) (vs : List (List ℚ)) (t j : Nat)
    (h : kn (List.range' 1 (t - 1))
        ((List.range' 1 (t - 1)).map (i kmeans_kwargs (fit_transform σ vs))) = some j) :
    (find_optimal_k i kn σ vs t).k = j
    ∧ (find_optimal_k i kn σ vs t).warning
        = (if j = t then some KWarning.elbowAtBoundary else none) := by
  rw [find_optimal_k]
  simp only [h]
  exact ⟨trivial, trivial⟩

lemma optk_curve_eq (i : KMeansParams → List (List ℚ) → Nat → ℚ)
    (kn : List Nat → List ℚ → Option Nat) (σ : List ℚ) (vs : List (List ℚ)) (t : Nat) :
    (find_optimal_k i kn σ vs t).curve
      = (List.range' 1 (t - 1)).map
          (fun k => (k, i kmeans_kwargs (fit_transform σ vs) k))
    ∧ (find_optimal_k i kn σ vs t).kneeXs = List.range' 1 (t - 1)
    ∧ (find_optimal_k i kn σ vs t).kneeSse
      = (List.range' 1 (t - 1)).map (i kmeans_kwargs (fit_transform σ vs)) := by
  rw [find_optimal_k]
  cases h : kn (List.range' 1 (t - 1))
      ((List.range' 1 (t - 1)).map (i kmeans_kwargs (fit_transform σ vs))) <;>
    simp only [h] <;>
    exact ⟨zip_self_map _ _, trivial, trivial⟩

lemma optk_scaled_eq (i : KMeansParams → List (List ℚ) → Nat → ℚ)
    (kn : List Nat → List ℚ → Option Nat) (σ : List ℚ) (vs : List (List ℚ)) (t : Nat) :
    (find_optimal_k i kn σ vs t).scaled = fit_transform σ vs := by
  rw [find_optimal_k]
  cases h : kn (List.range' 1 (t - 1))
      ((List.range' 1 (t - 1)).map (i kmeans_kwargs (fit_transform σ vs))) <;>
    simp only [h]

/-- C1: the sweep of find_optimal_k iterates the Python range(1, top_end)
and therefore excludes top_end itself. At top_end = 3 the KneeLocator x
range and the recorded curve cover only k = 1 and k = 2: no pair for
k = top_end exists, although the docstring announces top_end as the
maximum number of clusters tested and the boundary branch compares the
elbow against top_end. -/
theorem find_optimal_k_excludes_top_end :
    (find_optimal_k inertiaDemo kneeNone sigma1 vecsDemo 3).kneeXs = [1, 2]
    ∧ (find_optimal_k inertiaDemo kneeNone sigma1 vecsDemo 3).curve.map Prod.fst = [1, 2]
    ∧ 3 ∉ (find_optimal_k inertiaDemo kneeNone sigma1 vecsDemo 3).curve.map Prod.fst := by
  refine ⟨?_, ?_, ?_⟩
  · rw [(optk_curve_eq inertiaDemo kneeNone sigma1 vecsDemo 3).2.1]; decide
  · rw [(optk_curve_eq inertiaDemo kneeNone sigma1 vecsDemo 3).1]; decide
  · rw [(optk_curve_eq inertiaDemo kneeNone sigma1 vecsDemo 3).1]; decide

/-- C2: the edge-case policy of find_optimal_k, conditional on the result
of the knee search oracle: no elbow returns top_end with the degenerate
warning; an elbow exactly at top_end is returned together with the
boundary warning; any other elbow is returned with no warning. -/
theorem find_optimal_k_edge_policy (i : KMeansParams → List (List ℚ) → Nat → ℚ)
    (kn : List Nat → List ℚ → Option Nat) (σ : List ℚ) (vs : List (List ℚ)) (t : Nat) :
    (kn (List.range' 1 (t - 1))
        ((List.range' 1 (t - 1)).map (i kmeans_kwargs (fit_transform σ vs))) = none →
      (find_optimal_k i kn σ vs t).k = t
      ∧ (find_optimal_k i kn σ vs t).warning = some KWarning.noElbowMax)
    ∧ (kn (List.range' 1 (t - 1))
        ((List.range' 1 (t - 1)).map (i kmeans_kwargs (fit_transform σ vs))) = some t →
      (find_optimal_k i kn σ vs t).k = t
      ∧ (find_optimal_k i kn σ vs t).warning = some KWarning.elbowAtBoundary)
    ∧ (∀ j, kn (List.range' 1 (t - 1))
        ((List.range' 1 (t - 1)).map (i kmeans_kwargs (fit_transform σ vs))) = some j →
      j ≠ t →
      (find_optimal_k i kn σ vs t).k = j
      ∧ (find_optimal_k i kn σ vs t).warning = none) := by
  refine ⟨fun h => optk_k_eq_none i kn σ vs t h, fun h => ?_, fun j h hj => ?_⟩
  · have h2 := optk_k_eq_some i kn σ vs t t h
    simpa using h2
  · have h2 := optk_k_eq_some i kn σ vs t j h
    rw [if_neg hj] at h2
    exact h2

/-- Witness for C2, instantiating the boundary scenario of the claim:
top_end = 2 with the elbow reported at k = 2 returns 2 together with the
boundary warning. -/
theorem find_optimal_k_edge_policy_witness :
    (find_optimal_k inertiaDemo kneeAtTwo sigma1 vecsDemo 2).k = 2
    ∧ (find_optimal_k inertiaDemo kneeAtTwo sigma1 vecsDemo 2).warning
        = some KWarning.elbowAtBoundary :=
  (find_optimal_k_edge_policy inertiaDemo kneeAtTwo sigma1 vecsDemo 2).2.1 rfl

/-- C3: with top_end clamped down to the number of vectors by the caller,
the k chosen by find_optimal_k is at least one, at most the clamped
top_end, at most the number of vectors and at most the configured
maximum, both in the elbow case (the kneed library reports an elbow from
the x range it was given, KneeInRange) and in the no-elbow fallback that
returns the clamped top_end. -/
theorem find_optimal_k_chosen_k_bounds (i : KMeansParams → List (List ℚ) → Nat → ℚ)
    (kn : List Nat → List ℚ → Option Nat) (σ : List ℚ) (vs : List (List ℚ))
    (maxc : Nat) (hkn : KneeInRange kn) (hv : 1 ≤ vs.length) (hm : 2 ≤ maxc) :
    1 ≤ (find_optimal_k i kn σ vs (clamp_top_end vs.length maxc)).k
    ∧ (find_optimal_k i kn σ vs (clamp_top_end vs.length maxc)).k
        ≤ clamp_top_end vs.length maxc
    ∧ (find_optimal_k i kn σ vs (clamp_top_end vs.length maxc)).k ≤ vs.length
    ∧ (find_optimal_k i kn σ vs (clamp_top_end vs.length maxc)).k ≤ maxc := by
  have ht : 1 ≤ clamp_top_end vs.length maxc
      ∧ clamp_top_end vs.length maxc ≤ vs.length
      ∧ clamp_top_end vs.length maxc ≤ maxc := by
    unfold clamp_top_end
    split <;> omega
  cases h : kn (List.range' 1 (clamp_top_end vs.length maxc - 1))
      ((List.range' 1 (clamp_top_end vs.length maxc - 1)).map
        (i kmeans_kwargs (fit_transform σ vs))) with
  | none =>
    have hk := (optk_k_eq_none i kn σ vs (clamp_top_end vs.length maxc) h).1
    omega
  | some j =>
    have hk := (optk_k_eq_some i kn σ vs (clamp_top_end vs.length maxc) j h).1
    have hj := hkn _ _ _ h
    rw [List.mem_range'_1] at hj
    omega

/-- Witness for C3 at a concrete two-vector input with the degenerate
knee oracle: the fallback k equals two, within every bound. -/
theorem find_optimal_k_chosen_k_bounds_witness :
    1 ≤ (find_optimal_k inertiaDemo kneeNone sigma1 vecsDemo
          (clamp_top_end vecsDemo.length 15)).k
    ∧ (find_optimal_k inertiaDemo kneeNone sigma1 vecsDemo
          (clamp_top_end vecsDemo.length 15)).k ≤ clamp_top_end vecsDemo.length 15
    ∧ (find_optimal_k inertiaDemo kneeNone sigma1 vecsDemo
          (clamp_top_end vecsDemo.length 15)).k ≤ vecsDemo.length
    ∧ (find_optimal_k inertiaDemo kneeNone sigma1 vecsDemo
          (clamp_top_end vecsDemo.length 15)).k ≤ 15 :=
  find_optimal_k_chosen_k_bounds inertiaDemo kneeNone sigma1 vecsDemo 15
    (fun _ _ _ h => nomatch h) (by decide) (by decide)

/-- C6: find_optimal_k is deterministic for the fixed seeding: its chosen
k and its inertia curve depend on the KMeans oracle only through the
behaviour of that oracle under the fixed kmeans_kwargs (init random,
n_init 30, max_iter 300, random_state 42), so two runs over the same
vectors and top_end agree; the embedding is a pure function of its
arguments, mirroring that the source never writes to input_matrix. -/
theorem find_optimal_k_deterministic (i₁ i₂ : KMeansParams → List (List ℚ) → Nat → ℚ)
    (kn : List Nat → List ℚ → Option Nat) (σ : List ℚ) (vs : List (List ℚ)) (t : Nat)
    (h : ∀ feats k, i₁ kmeans_kwargs feats k = i₂ kmeans_kwargs feats k) :
    (find_optimal_k i₁ kn σ vs t).k = (find_optimal_k i₂ kn σ vs t).k
    ∧ (find_optimal_k i₁ kn σ vs t).curve = (find_optimal_k i₂ kn σ vs t).curve := by
  have key : find_optimal_k i₁ kn σ vs t = find_optimal_k i₂ kn σ vs t := by
    have hsse : (List.range' 1 (t - 1)).map (i₁ kmeans_kwargs (fit_transform σ vs))
        = (List.range' 1 (t - 1)).map (i₂ kmeans_kwargs (fit_transform σ vs)) :=
      List.map_congr_left (fun a _ => h _ a)
    rw [find_optimal_k, find_optimal_k, hsse]
  rw [key]
  exact ⟨rfl, rfl⟩

/-- Witness for C6: two oracles that agree under kmeans_kwargs but differ
under any other parameters produce the same chosen k and the same curve
on a concrete input. -/
theorem find_optimal_k_deterministic_witness :
    (find_optimal_k inertiaA kneeNone sigma1 vecsDemo 3).k
      = (find_optimal_k inertiaB kneeNone sigma1 vecsDemo 3).k
    ∧ (find_optimal_k inertiaA kneeNone sigma1 vecsDemo 3).curve
      = (find_optimal_k inertiaB kneeNone sigma1 vecsDemo 3).curve :=
  find_optimal_k_deterministic inertiaA inertiaB kneeNone sigma1 vecsDemo 3
    (fun feats k => by simp [inertiaA, inertiaB])

/-- C7: the choice of projection method does not affect the cluster
assignment: the kmeans column of vizjobs_googleUSE is the same for any
two values of viz_type, and it is produced by applying hero.kmeans to the
raw use_vec vectors at the selected k, never to the 2D coordinates. -/
theorem googleUSE_assignment_independent (useO : List PyStr → List (List ℚ))
    (i : KMeansParams → List (List ℚ) → Nat → ℚ)
    (kn : List Nat → List ℚ → Option Nat) (σ : List ℚ)
    (kmO : HeroKMeansParams → List (List ℚ) → Nat → List Nat)
    (pcaO tsneO : List (List ℚ) → List (ℚ × ℚ))
    (rows : List USERow) (vt₁ vt₂ : PyStr) :
    (vizjobs_googleUSE useO i kn σ kmO pcaO tsneO rows vt₁).assignment
      = (vizjobs_googleUSE useO i kn σ kmO pcaO tsneO rows vt₂).assignment
    ∧ (vizjobs_googleUSE useO i kn σ kmO pcaO tsneO rows vt₁).assignment
      = kmO hero_kmeans_args (useO (rows.map (fun r => r.text)))
          (vizjobs_googleUSE useO i kn σ kmO pcaO tsneO rows vt₁).optk.k :=
  ⟨rfl, rfl⟩

lemma standardizeRow_id (v : List ℚ) (n : Nat) (h : v.length ≤ n) :
    standardizeRow v (List.replicate n 0) (List.replicate n 1) = v := by
  induction v generalizing n with
  | nil => cases n <;> rfl
  | cons x xs ih =>
    cases n with
    | zero => simp at h
    | succ m =>
      simp only [List.replicate, standardizeRow]
      rw [ih m (by simpa using h)]
      norm_num

lemma fit_transform_id (vs : List (List ℚ)) (d : Nat)
    (hd : ∀ v ∈ vs, v.length = d)
    (hμ : fitMean vs = List.replicate d 0) :
    fit_transform (List.replicate d 1) vs = vs := by
  unfold fit_transform
  rw [hμ]
  have h : ∀ v ∈ vs, standardizeRow v (List.replicate d 0) (List.replicate d 1) = v :=
    fun v hv => standardizeRow_id v d (le_of_eq (hd v hv))
  rw [List.map_congr_left h]
  simp

/-- C8 counterexample: on the vector set [[0], [2]] (whose exact sklearn
scale vector is [1], certified by isSqrtScaleB), the word2vec driver
passes the raw vectors [[0], [2]] to hero.kmeans, while the selector
computed its inertia curve over the standardized features [[-1], [1]]:
the final clustering does not run in the standardized feature space of
the InertiaCurve. -/
theorem w2v_cluster_not_standardized_cex :
    (viz_job_data_word2vec lookupAB inertiaDemo kneeNone sigma1 km0 pca0
        [rowA, rowB] 15).map (fun o => (o.clusterInput, o.optk.scaled))
      = Except.ok ([[0], [2]], [[-1], [1]])
    ∧ ([[0], [2]] : List (List ℚ)) ≠ [[-1], [1]]
    ∧ isSqrtScaleB (colVars [[0], [2]]) [1] = true := by
  refine ⟨?_, by norm_num, ?_⟩
  · have hA : (get_vector_freetext wordA lookupAB 2).rep_vec = some [0] := by
      have h0 : (get_vector_freetext wordA lookupAB 2).rep_vec = npMeanAxis0 [[0]] := rfl
      rw [h0]
      norm_num [npMeanAxis0, transposeQ, transposeAux, meanQ]
    have hB : (get_vector_freetext wordB lookupAB 2).rep_vec = some [2] := by
      have h0 : (get_vector_freetext wordB lookupAB 2).rep_vec = npMeanAxis0 [[2]] := rfl
      rw [h0]
      norm_num [npMeanAxis0, transposeQ, transposeAux, meanQ]
    have hAll : allSomeList ([rowA, rowB].map
        (fun r => (get_vector_freetext r.text lookupAB 2).rep_vec))
        = some [[0], [2]] := by
      simp only [List.map_cons, List.map_nil, rowA, rowB]
      rw [hA, hB]
      rfl
    simp only [viz_job_data_word2vec, hAll, Except.map, Except.ok.injEq, Prod.mk.injEq]
    refine ⟨trivial, ?_⟩
    rw [optk_scaled_eq]
    norm_num [fit_transform, fitMean, transposeQ, transposeAux, meanQ,
      standardizeRow, sigma1]
  · norm_num [isSqrtScaleB, colVars, transposeQ, transposeAux, varQ, meanQ]

/-- C8 as amended: the selector standardizes (its recorded feature matrix
is always the fit_transform of the clustering input), but the final
clustering receives the raw, unstandardized vectors; the two feature
spaces coincide exactly in the degenerate situation where the vectors
are already standardized, that is the fitted column means are all zero
and the scale vector is all ones. -/
theorem w2v_cluster_features_amended (lookup : PyStr → Option (List ℚ))
    (i : KMeansParams → List (List ℚ) → Nat → ℚ)
    (kn : List Nat → List ℚ → Option Nat) (σ : List ℚ)
    (km : HeroKMeansParams → List (List ℚ) → Nat → List Nat)
    (pca : List (List ℚ) → List (ℚ × ℚ)) (rows : List W2VRow) (maxc : Nat) :
    (viz_job_data_word2vec lookup i kn σ km pca rows maxc).map (fun o => o.optk.scaled)
      = (viz_job_data_word2vec lookup i kn σ km pca rows maxc).map
          (fun o => fit_transform σ o.clusterInput)
    ∧ (∀ vecs d,
        allSomeList (rows.map (fun r => (get_vector_freetext r.text lookup 2).rep_vec))
          = some vecs →
        (∀ v ∈ vecs, v.length = d) →
        fitMean vecs = List.replicate d 0 →
        σ = List.replicate d 1 →
        (viz_job_data_word2vec lookup i kn σ km pca rows maxc).map (fun o => o.optk.scaled)
          = (viz_job_data_word2vec lookup i kn σ km pca rows maxc).map
              (fun o => o.clusterInput)) := by
  constructor
  · cases h : allSomeList (rows.map
        (fun r => (get_vector_freetext r.text lookup 2).rep_vec)) with
    | none => simp [viz_job_data_word2vec, h, Except.map]
    | some vecs => simp [viz_job_data_word2vec, h, Except.map, optk_scaled_eq]
  · intro vecs d hv hd hμ hσ
    subst hσ
    simp [viz_job_data_word2vec, hv, Except.map, optk_scaled_eq,
      fit_transform_id vecs d hd hμ]

/-- Witness for C8 as amended: on the already standardized vector set
[[-1], [1]] the selector features and the clustering features agree. -/
theorem w2v_cluster_features_amended_witness :
    (viz_job_data_word2vec lookupStd inertiaDemo kneeNone sigma1 km0 pca0
        [rowA, rowB] 15).map (fun o => o.optk.scaled)
      = (viz_job_data_word2vec lookupStd inertiaDemo kneeNone sigma1 km0 pca0
          [rowA, rowB] 15).map (fun o => o.clusterInput) := by
  have hA : (get_vector_freetext wordA lookupStd 2).rep_vec = some [-1] := by
    have h0 : (get_vector_freetext wordA lookupStd 2).rep_vec = npMeanAxis0 [[-1]] := rfl
    rw [h0]
    norm_num [npMeanAxis0, transposeQ, transposeAux, meanQ]
  have hB : (get_vector_freetext wordB lookupStd 2).rep_vec = some [1] := by
    have h0 : (get_vector_freetext wordB lookupStd 2).rep_vec = npMeanAxis0 [[1]] := rfl
    rw [h0]
    norm_num [npMeanAxis0, transposeQ, transposeAux, meanQ]
  have hAll : allSomeList ([rowA, rowB].map
      (fun r => (get_vector_freetext r.text lookupStd 2).rep_vec))
      = some [[-1], [1]] := by
    simp only [List.map_cons, List.map_nil, rowA, rowB]
    rw [hA, hB]
    rfl
  have hμ : fitMean ([[-1], [1]] : List (List ℚ)) = List.replicate 1 0 := by
    norm_num [fitMean, transposeQ, transposeAux, meanQ, List.replicate]
  exact (w2v_cluster_features_amended lookupStd inertiaDemo kneeNone sigma1 km0 pca0
      [rowA, rowB] 15).2 [[-1], [1]] 1 hAll (by decide) hμ rfl

/-- C9 counterexample: a batch holding a record with empty text (whose
representative vector is undefined) next to a healthy record makes the
whole word2vec run abort with the NaN error raised inside the numeric
stage: the degraded record is not dropped before the projection, and the
healthy record never reaches the final point sequence. -/
theorem w2v_nan_vector_abort_cex :
    (get_vector_freetext rowEmpty.text lookupAB 2).rep_vec = none
    ∧ viz_job_data_word2vec lookupAB inertiaDemo kneeNone sigma1 km0 pca0
        [rowEmpty, rowB] 15 = Except.error VizError.nanInput :=
  ⟨rfl, rfl⟩

lemma dropnaJoin_length (rows : List USERow) (ls : List Nat) (cs : List (ℚ × ℚ))
    (h1 : ls.length = rows.length) (h2 : cs.length = rows.length) :
    (dropnaJoin rows ls cs).length
      = (rows.filter (fun r => (allSomeList r.meta).isSome)).length := by
  induction rows generalizing ls cs with
  | nil => simp [dropnaJoin]
  | cons r rs ih =>
    cases ls with
    | nil => simp at h1
    | cons l ls =>
      cases cs with
      | nil => simp at h2
      | cons c cs =>
        have h1s : ls.length = rs.length := by simpa using h1
        have h2s : cs.length = rs.length := by simpa using h2
        cases hm : allSomeList r.meta with
        | none =>
          simp [dropnaJoin, List.filter_cons, hm]
          simpa [dropnaJoin] using ih ls cs h1s h2s
        | some m =>
          simp [dropnaJoin, List.filter_cons, hm]
          simpa [dropnaJoin] using ih ls cs h1s h2s

/-- C9 as amended: an undefined representative vector is never dropped in
the word2vec path; the first numeric stage receives it and the whole run
aborts with the NaN error, emitting no points at all. In the Google USE
path no record is removed before the projection (the reducer receives the
vector of every row), and the dropna placed after the projection removes
exactly the rows with an undefined metadata cell, so every emitted point
is complete and the output count equals the input count minus the dropped
rows. -/
theorem nan_policy_amended :
    (∀ (lookup : PyStr → Option (List ℚ)) (i : KMeansParams → List (List ℚ) → Nat → ℚ)
        (kn : List Nat → List ℚ → Option Nat) (σ : List ℚ)
        (km : HeroKMeansParams → List (List ℚ) → Nat → List Nat)
        (pca : List (List ℚ) → List (ℚ × ℚ)) (rows : List W2VRow) (maxc : Nat),
      (∃ r ∈ rows, (get_vector_freetext r.text lookup 2).rep_vec = none) →
      viz_job_data_word2vec lookup i kn σ km pca rows maxc
        = Except.error VizError.nanInput)
    ∧ (∀ (useO : List PyStr → List (List ℚ))
        (i : KMeansParams → List (List ℚ) → Nat → ℚ)
        (kn : List Nat → List ℚ → Option Nat) (σ : List ℚ)
        (km : HeroKMeansParams → List (List ℚ) → Nat → List Nat)
        (pca tsne : List (List ℚ) → List (ℚ × ℚ)) (rows : List USERow) (vt : PyStr),
      (vizjobs_googleUSE useO i kn σ km pca tsne rows vt).projInput
        = useO (rows.map (fun r => r.text))
      ∧ ((vizjobs_googleUSE useO i kn σ km pca tsne rows vt).assignment.length
            = rows.length →
         (vizjobs_googleUSE useO i kn σ km pca tsne rows vt).coords.length
            = rows.length →
         (vizjobs_googleUSE useO i kn σ km pca tsne rows vt).points.length
           = (rows.filter (fun r => (allSomeList r.meta).isSome)).length)) := by
  constructor
  · intro lookup i kn σ km pca rows maxc h
    obtain ⟨r, hr, hnone⟩ := h
    have hmem : none ∈ rows.map (fun r => (get_vector_freetext r.text lookup 2).rep_vec) := by
      rw [← hnone]
      exact List.mem_map_of_mem _ hr
    have h2 := allSomeList_eq_none _ hmem
    simp [viz_job_data_word2vec, h2]
  · intro useO i kn σ km pca tsne rows vt
    refine ⟨rfl, fun h1 h2 => ?_⟩
    exact dropnaJoin_length rows
      ((vizjobs_googleUSE useO i kn σ km pca tsne rows vt).assignment)
      ((vizjobs_googleUSE useO i kn σ km pca tsne rows vt).coords) h1 h2

/-- Witness for C9 as amended: a one-record batch whose text is empty
aborts the word2vec run with the NaN error. -/
theorem nan_policy_amended_witness :
    viz_job_data_word2vec lookupAB inertiaDemo kneeNone sigma1 km0 pca0
        [rowEmpty] 15 = Except.error VizError.nanInput :=
  nan_policy_amended.1 lookupAB inertiaDemo kneeNone sigma1 km0 pca0 [rowEmpty] 15
    ⟨rowEmpty, by simp, rfl⟩

end ScrapeViz
